import Mathlib

/-!
Verification of the per-socket scheduler and socket operations of
`src/node-dgram.js` (a Node dgram adapter over an async UDP primitive).

The JavaScript source is shallowly embedded: the dynamically typed
arguments of `send`/`bind` are modelled by `JSVal`, the socket state by
`Socket`, queued work by `Task`, and the asynchronous collaborators
(DNS resolver, UDP socket manager and handle) by an `Env` record of
outcome functions.  Each task's `perform` is a pure function from the
socket state and the collaborator outcomes to the resulting state plus
the observable effects (events emitted, datagrams handed to the handle,
callback invocations, and an exception escaping the task, if any).
-/

namespace Dgram

/-- Socket type, `"udp4"` or `"udp6"` (node-dgram.js line 59). -/
inductive SocketType where
  | udp4
  | udp6
deriving DecidableEq

/-- The `Bind` state enum of node-dgram.js lines 14-18. -/
inductive BindState where
  | UNBOUND
  | BINDING
  | BOUND
deriving DecidableEq

/-- A node `Buffer`/`Uint8Array`: we model only the underlying byte
array (the `buffer` field that `Send.perform` destructures). -/
structure NBuffer where
  buffer : List Nat

/-- `Buffer.from(string)`: byte encoding abstracted as code points
(injective on the inputs used; only payload identity and order matter). -/
def NBuffer.fromString (s : String) : NBuffer :=
  ⟨s.data.map Char.toNat⟩

/-- Dynamically typed JavaScript values as far as the argument parsing
of `send` and `bind` inspects them.  `opts` is a plain object carrying
the three properties `bind` reads (`port`, `address`, `exclusive`);
a property that is absent reads as `undefv`. -/
inductive JSVal where
  | undefv
  | nullv
  | boolv (b : Bool)
  | num (n : Int)
  | str (s : String)
  | fn (id : Nat)
  | u8 (b : NBuffer)
  | arr (elems : List JSVal)
  | opts (port : JSVal) (address : JSVal) (exclusive : JSVal)

/-- JavaScript truthiness (`NaN` is not modelled). -/
def JSVal.truthy : JSVal → Bool
  | .undefv => false
  | .nullv => false
  | .boolv b => b
  | .num n => n != 0
  | .str s => s != ""
  | .fn _ => true
  | .u8 _ => true
  | .arr _ => true
  | .opts _ _ _ => true

/-- `typeof v === "function"`. -/
def JSVal.isFunction : JSVal → Bool
  | .fn _ => true
  | _ => false

/-- `typeof v === "string"`. -/
def JSVal.isString : JSVal → Bool
  | .str _ => true
  | _ => false

/-- `v instanceof Uint8Array` (the source's `isUint8Array`, line 12). -/
def JSVal.isU8 : JSVal → Bool
  | .u8 _ => true
  | _ => false

/-- `Array.isArray(v)`. -/
def JSVal.isArray : JSVal → Bool
  | .arr _ => true
  | _ => false

/-- `v !== null && typeof v === "object"` (the object test in `bind`,
line 297); `typeof` is `"object"` for arrays and Uint8Arrays too. -/
def JSVal.isObj : JSVal → Bool
  | .u8 _ => true
  | .arr _ => true
  | .opts _ _ _ => true
  | _ => false

/-- Loose `v != undefined`: false exactly for `undefined` and `null`. -/
def JSVal.looseNeqUndef : JSVal → Bool
  | .undefv => false
  | .nullv => false
  | _ => true

/-- Strict `v === 0`. -/
def JSVal.isNumZero : JSVal → Bool
  | .num n => n == 0
  | _ => false

/-- Property read `v.port` (absent on non-`opts` values). -/
def JSVal.propPort : JSVal → JSVal
  | .opts p _ _ => p
  | _ => .undefv

/-- Property read `v.address`. -/
def JSVal.propAddress : JSVal → JSVal
  | .opts _ a _ => a
  | _ => .undefv

/-- Property read `v.exclusive`. -/
def JSVal.propExclusive : JSVal → JSVal
  | .opts _ _ e => e
  | _ => .undefv

/-- The string held by a `str` value, with a default elsewhere. -/
def JSVal.strD (v : JSVal) (d : String) : String :=
  match v with
  | .str s => s
  | _ => d

/-- The callback id held by a `fn` value, if any. -/
def JSVal.fnId : JSVal → Option Nat
  | .fn i => some i
  | _ => none

/-- The WhiteSpace/LineTerminator code points trimmed by ToNumber on
strings (the common ASCII ones). -/
def isJsWhite (c : Char) : Bool :=
  c == ' ' || c == '\t' || c == '\n' || c == '\r' || c == '\x0b' || c == '\x0c'

/-- Value of a list of decimal digits. -/
def decVal (cs : List Char) : Nat :=
  cs.foldl (fun a c => 10 * a + (c.toNat - 48)) 0

/-- Value of one hexadecimal digit, if it is one. -/
def hexDigitVal (c : Char) : Option Nat :=
  if c.isDigit then some (c.toNat - 48)
  else if 'a' ≤ c && c ≤ 'f' then some (c.toNat - 87)
  else if 'A' ≤ c && c ≤ 'F' then some (c.toNat - 55)
  else none

/-- Value of a digit string in the given radix; `none` on any digit
outside the radix. -/
def radixVal (base : Nat) (cs : List Char) : Option Nat :=
  cs.foldl
    (fun acc c =>
      match acc, hexDigitVal c with
      | some a, some d => if d < base then some (base * a + d) else none
      | _, _ => none)
    (some 0)

/-- A `0x`/`0o`/`0b` numeric string after its prefix: the exact value.
Every double of magnitude at least `2 ^ 84` is a multiple of `2 ^ 32`
(its ulp is at least `2 ^ 32`), and Infinity converts to 0 as well, so
ToUint32 of any such value is 0: those magnitudes collapse to 0. -/
def radixNum (base : Nat) (cs : List Char) : Option Int :=
  if cs.isEmpty then none
  else
    match radixVal base cs with
    | none => none
    | some n => some (if 2 ^ 84 ≤ n then 0 else (n : Int))

/-- Number of significant digits (leading zeros stripped). -/
def sigDigits (cs : List Char) : Nat :=
  (cs.dropWhile (fun c => c == '0')).length

/-- The exponent part of a decimal numeric string: optional sign and a
nonempty digit run; returns the exponent and the unconsumed rest. -/
def parseExpDigits (sign : Int) (d : List Char) : Option (Int × List Char) :=
  let ds := d.takeWhile Char.isDigit
  if ds.isEmpty then none
  else some (sign * (decVal ds : Int), d.dropWhile Char.isDigit)

def parseExp : List Char → Option (Int × List Char)
  | '+' :: d => parseExpDigits 1 d
  | '-' :: d => parseExpDigits (-1) d
  | d => parseExpDigits 1 d

/-- A signed decimal literal `digits [. digits] [e sign digits]` after
its sign: the value truncated toward zero (ToUint32 truncates before
taking the value modulo `2 ^ 32`), exactly.  As everywhere in the
embedding, numbers are exact integers - IEEE-754 rounding, significant
only beyond `2 ^ 53`, is not modelled - except that magnitudes of at
least `2 ^ 84` collapse to 0, which is ToUint32-exact: every double
that large is a multiple of `2 ^ 32` (ulp at least `2 ^ 32`), and the
overflow of huge literals to Infinity also gives ToUint32 0. -/
def parseDecTail (sign : Int) (cs : List Char) : Option Int :=
  let ip := cs.takeWhile Char.isDigit
  let rest1 := cs.dropWhile Char.isDigit
  let fpr : List Char × List Char :=
    match rest1 with
    | '.' :: r => (r.takeWhile Char.isDigit, r.dropWhile Char.isDigit)
    | _ => ([], rest1)
  if ip.isEmpty && fpr.1.isEmpty then none
  else
    match (match fpr.2 with
           | 'e' :: r => parseExp r
           | 'E' :: r => parseExp r
           | _ => some (0, fpr.2)) with
    | none => none
    | some (ev, rest3) =>
        if !rest3.isEmpty then none
        else
          let M := decVal (ip ++ fpr.1)
          let sd := sigDigits (ip ++ fpr.1)
          let m : Int := ev - fpr.1.length
          if M = 0 then some 0
          else if 0 ≤ m then
            if 30 < sd + m.toNat then some 0
            else
              let v := M * 10 ^ m.toNat
              if 2 ^ 84 ≤ v then some 0 else some (sign * v)
          else
            let dm := (-m).toNat
            if sd ≤ dm then some 0
            else
              let v := M / 10 ^ dm
              if 2 ^ 84 ≤ v then some 0 else some (sign * v)

/-- ToNumber on a string (the StrNumericLiteral grammar): trim
whitespace, empty is 0, a signed decimal literal (fraction and
exponent included) is truncated toward zero, unsigned `0x`/`0o`/`0b`
literals are read in their radix, and anything else is NaN (`none`).
`Infinity` strings fall to `none` too: ToUint32 sends both NaN and
Infinity to 0, so the distinction is invisible to `>>> 0`. -/
def parseJSNumber (s : String) : Option Int :=
  let cs := ((s.data.dropWhile isJsWhite).reverse.dropWhile isJsWhite).reverse
  match cs with
  | [] => some 0
  | '0' :: 'x' :: r => radixNum 16 r
  | '0' :: 'X' :: r => radixNum 16 r
  | '0' :: 'o' :: r => radixNum 8 r
  | '0' :: 'O' :: r => radixNum 8 r
  | '0' :: 'b' :: r => radixNum 2 r
  | '0' :: 'B' :: r => radixNum 2 r
  | '+' :: r => parseDecTail 1 r
  | '-' :: r => parseDecTail (-1) r
  | _ => parseDecTail 1 cs

/-- Is the value `null` or `undefined` (rendered as the empty string
by `Array.prototype.join`)? -/
def isNullish : JSVal → Bool
  | JSVal.undefv => true
  | JSVal.nullv => true
  | _ => false

mutual

/-- ToString as ToNumber's ToPrimitive path sees it: arrays and typed
arrays stringify via their comma join, plain objects as
`[object Object]`, a function as its (non-numeric) source text. -/
def jsToString : JSVal → String
  | JSVal.undefv => "undefined"
  | JSVal.nullv => "null"
  | JSVal.boolv b => if b then "true" else "false"
  | JSVal.num n => toString n
  | JSVal.str s => s
  | JSVal.fn _ => "function"
  | JSVal.u8 b => String.intercalate "," (b.buffer.map (fun n => toString n))
  | JSVal.arr es => jsJoinElems es
  | JSVal.opts _ _ _ => "[object Object]"

/-- `Array.prototype.join` with the default comma separator
(`null`/`undefined` elements render empty). -/
def jsJoinElems : List JSVal → String
  | [] => ""
  | v :: rest =>
      let head := if isNullish v then "" else jsToString v
      match rest with
      | [] => head
      | _ :: _ => head ++ "," ++ jsJoinElems rest

end

/-- ToNumber on the embedding's values (`none` is NaN): numbers are
exact integers, booleans and `null` convert to 0/1/0, `undefined`,
functions and plain objects to NaN, strings through the numeric-string
grammar, and arrays/Uint8Arrays through ToNumber of their ToString
join. -/
def toNumber : JSVal → Option Int
  | JSVal.num n => some n
  | JSVal.boolv b => some (if b then 1 else 0)
  | JSVal.nullv => some 0
  | JSVal.undefv => none
  | JSVal.str s => parseJSNumber s
  | JSVal.fn _ => none
  | JSVal.u8 b => parseJSNumber (String.intercalate "," (b.buffer.map (fun n => toString n)))
  | JSVal.arr es => parseJSNumber (jsJoinElems es)
  | JSVal.opts _ _ _ => none

/-- ToUint32 of a ToNumber result: NaN is 0, values reduce modulo
`2 ^ 32` (the truncation toward zero of fractional values has already
happened in `parseDecTail`; the embedding's numbers are integers). -/
def uint32OfNumber : Option Int → Nat
  | none => 0
  | some n => (n % (2 ^ 32 : Int)).toNat

/-- JavaScript `v >>> 0`: ToUint32 after ToNumber. -/
def toUint32 (v : JSVal) : Nat :=
  uint32OfNumber (toNumber v)

/-- The error taxonomy of node-dgram.js lines 449-549 (messages
abstracted; only the class and the dynamic data are kept). -/
inductive DgramError where
  | invalidArgType (name : String)
  | badPort (port : Nat)
  | alreadyBound
  | notRunning
  | missingArgs (name : String)
  | sys (code : Nat)
deriving DecidableEq

/-- `sliceBuffer` (lines 563-579): coerce a string to a buffer, reject
any other non-Uint8Array value, then slice with `offset >>> 0` and
`start + (length >>> 0)`; `slice` clamps out-of-range bounds. -/
def sliceBuffer (source offset len : JSVal) : Except DgramError NBuffer :=
  match source with
  | .str s =>
      Except.ok ⟨(((NBuffer.fromString s).buffer).take (toUint32 offset + toUint32 len)).drop (toUint32 offset)⟩
  | .u8 b =>
      Except.ok ⟨((b.buffer).take (toUint32 offset + toUint32 len)).drop (toUint32 offset)⟩
  | _ => Except.error (DgramError.invalidArgType "buffer")

/-- `fixBufferList` (lines 581-592): strings are converted, Uint8Arrays
kept, anything else makes the whole list invalid (`null`). -/
def fixBufferList : List JSVal → Option (List NBuffer)
  | [] => some []
  | v :: rest =>
      match v with
      | .str s =>
          match fixBufferList rest with
          | some l => some (NBuffer.fromString s :: l)
          | none => none
      | .u8 b =>
          match fixBufferList rest with
          | some l => some (b :: l)
          | none => none
      | _ => none

/-- An element acceptable inside a `send` buffer list. -/
def goodElem : JSVal → Bool
  | .str _ => true
  | .u8 _ => true
  | _ => false

/-- A `send` buffer argument of one of the three accepted shapes:
string, byte array, or list of those. -/
def goodBuffer : JSVal → Bool
  | .str _ => true
  | .u8 _ => true
  | .arr es => es.all goodElem
  | _ => false

/-- Queued work (the `Task` interface, line 61): `Spawn` keeps the
requested bind address and port as parsed (dynamically typed), `Send`
keeps the normalized buffer list, coerced port, resolved-host argument
and optional callback id, `Close` carries nothing. -/
inductive Task where
  | spawn (address : JSVal) (port : JSVal)
  | sendT (list : List NBuffer) (port : Nat) (address : String) (callback : Option Nat)
  | closeT

/-- `Task.spawn` recognizer. -/
def isSpawn : Task → Bool
  | .spawn _ _ => true
  | _ => false

/-- `Task.sendT` recognizer. -/
def isSendTask : Task → Bool
  | .sendT _ _ _ _ => true
  | _ => false

/-- The socket state fields that the modelled operations touch
(`_bindState`, `_handle`, `workQueue`, plus the construction-time
constants `type` and `_reuseAddr`).  A handle is identified by a `Nat`.
The drain position/idle flag of the scheduler are modelled separately
(`SchedState`); here the queue holds the not-yet-performed tasks. -/
structure Socket where
  type : SocketType
  reuseAddr : Bool
  bindState : BindState
  handle : Option Nat
  workQueue : List Task

/-- The constructor (lines 90-115): starts unbound, no handle, empty
queue. -/
def Socket.new (type : SocketType) (reuseAddr : Bool) : Socket :=
  { type := type, reuseAddr := reuseAddr, bindState := BindState.UNBOUND,
    handle := none, workQueue := [] }

/-- The wildcard default bind address for the socket family
(lines 306-310). -/
def wildcardJS : SocketType → JSVal
  | SocketType.udp4 => JSVal.str "0.0.0.0"
  | SocketType.udp6 => JSVal.str "::"

/-- The loopback default destination for `send` (line 178). -/
def loopbackOf : SocketType → String
  | SocketType.udp4 => "127.0.0.1"
  | SocketType.udp6 => "::1"

/-- The argument parsing of `bind` (lines 294-310), producing the
(address, port) pair handed to the Spawn task: an options object
contributes `port.address || ""` and `port.port`; positionally a
callback in the address slot reads as `""`; a falsy address defaults
to the family wildcard.  The `exclusive` property is parsed by the
source (line 299) but never used afterwards. -/
def bindParsedPair (s : Socket) (args : List JSVal) : JSVal × JSVal :=
  let port0 := args.getD 0 JSVal.undefv
  let address1 := args.getD 1 JSVal.undefv
  let pa : JSVal × JSVal :=
    if port0.isObj then
      ((if (port0.propAddress).truthy then port0.propAddress else JSVal.str ""), port0.propPort)
    else
      ((if address1.isFunction then JSVal.str "" else address1), port0)
  ((if pa.1.truthy then pa.1 else wildcardJS s.type), pa.2)

/-- The body of a successful `bind` call (lines 286-314): set
`BINDING` and enqueue a `Spawn` for the parsed address and port.  The
`once("listening", ...)` registration is not modelled (no listener
registry is needed by the claims). -/
def Socket.bindBody (s : Socket) (args : List JSVal) : Socket :=
  { s with bindState := BindState.BINDING,
           workQueue := s.workQueue ++
             [Task.spawn (bindParsedPair s args).1 (bindParsedPair s args).2] }

/-- `bind` (lines 279-315): fail synchronously with already-bound
unless `UNBOUND`, otherwise run `bindBody`. -/
def Socket.bind (s : Socket) (args : List JSVal) : Except DgramError Socket :=
  if s.bindState ≠ BindState.UNBOUND then Except.error DgramError.alreadyBound
  else Except.ok (s.bindBody args)

/-- The argument-shape test of `send` (line 128):
`address || (port && typeof port !== "function")` over the positional
slots `[offset, length, port, address, callback]`. -/
def shapeSliced (args : List JSVal) : Bool :=
  (args.getD 3 JSVal.undefv).truthy ||
    ((args.getD 2 JSVal.undefv).truthy && !(args.getD 2 JSVal.undefv).isFunction)

/-- The effective port argument of `send`: slot 2 in the offset/length
shape, slot 0 otherwise (line 132 `port = offset`). -/
def effPortArg (args : List JSVal) : JSVal :=
  if shapeSliced args then args.getD 2 JSVal.undefv else args.getD 0 JSVal.undefv

/-- The effective address argument of `send` (line 133
`address = length`). -/
def effAddrArg (args : List JSVal) : JSVal :=
  if shapeSliced args then args.getD 3 JSVal.undefv else args.getD 1 JSVal.undefv

/-- The effective callback argument of `send` (line 131
`callback = port`). -/
def effCbArg (args : List JSVal) : JSVal :=
  if shapeSliced args then args.getD 4 JSVal.undefv else args.getD 2 JSVal.undefv

/-- The list normalization of `send` (lines 136-154) applied to the
(possibly already sliced) buffer value: a string becomes a one-element
list, a Uint8Array is wrapped, a list is normalized element-wise, and
everything else is an invalid-argument-type error. -/
def listNormalize : JSVal → Except DgramError (List NBuffer)
  | JSVal.arr elems =>
      match fixBufferList elems with
      | some l => Except.ok l
      | none => Except.error (DgramError.invalidArgType "buffer list arguments")
  | JSVal.str s0 => Except.ok [NBuffer.fromString s0]
  | JSVal.u8 nb => Except.ok [nb]
  | _ => Except.error (DgramError.invalidArgType "buffer")

/-- Propagate a slicing failure, otherwise normalize the slice. -/
def sliceCont : Except DgramError NBuffer → Except DgramError (List NBuffer)
  | Except.error e => Except.error e
  | Except.ok b => listNormalize (JSVal.u8 b)

/-- The buffer normalization of `send` (lines 128-154): slice first in
the offset/length shape (a slicing failure propagates as the thrown
error), then turn the buffer argument into a list of buffers. -/
def listStage (buffer : JSVal) (args : List JSVal) : Except DgramError (List NBuffer) :=
  if shapeSliced args then
    sliceCont (sliceBuffer buffer (args.getD 0 JSVal.undefv) (args.getD 1 JSVal.undefv))
  else listNormalize buffer

/-- The outcome of `send`'s synchronous validation (everything up to
and including line 168): the normalized buffer list, the coerced port,
the surviving address value (a string or something falsy) and the
normalized callback id. -/
structure ParsedSend where
  list : List NBuffer
  port : Nat
  address : JSVal
  callback : Option Nat

/-- The port and address checks of `send` (lines 156-168), applied to
the normalized buffer list: `port >>> 0` plus the 1-65535 range check,
callback normalization, then the address slot juggling (a function
there becomes the callback; a truthy non-string is an
invalid-argument-type error). -/
def parsePort (list : List NBuffer) (args : List JSVal) : Except DgramError ParsedSend :=
  let port := toUint32 (effPortArg args)
  if port = 0 ∨ 65535 < port then Except.error (DgramError.badPort port)
  else
    let cb0 := (effCbArg args).fnId
    let a := effAddrArg args
    if a.isFunction then Except.ok ⟨list, port, JSVal.undefv, a.fnId⟩
    else if a.truthy && !a.isString then
      Except.error (DgramError.invalidArgType "address")
    else Except.ok ⟨list, port, a, cb0⟩

/-- Propagate a buffer-normalization failure, otherwise run the
port/address checks. -/
def parseCont (args : List JSVal) : Except DgramError (List NBuffer) → Except DgramError ParsedSend
  | Except.error e => Except.error e
  | Except.ok list => parsePort list args

/-- The validation pipeline of `send` (lines 124-168), in source
order: buffer normalization, then the port and address checks. -/
def parseSend (buffer : JSVal) (args : List JSVal) : Except DgramError ParsedSend :=
  parseCont args (listStage buffer args)

/-- The argument object of the implicit bind performed by `send` on an
unbound socket (line 171): `bind(\x7b port: 0, exclusive: true \x7d, null)`. -/
def autoBindArgs : List JSVal :=
  [JSVal.opts (JSVal.num 0) JSVal.undefv (JSVal.boolv true), JSVal.nullv]

/-- The result of a successful `send` call: the new socket state plus
the argument lists of the `bind` calls `send` made internally (the
instrumentation that lets theorems speak about the implicit bind). -/
structure SendOut where
  socket : Socket
  bindCalls : List (List JSVal)

/-- The effect phase of `send` after successful validation (lines
170-179): auto-bind when still `UNBOUND` (the internal
`bind(\x7b port: 0, exclusive: true \x7d, null)` call, which cannot throw
there because the state is `UNBOUND`), replace an empty list by one
zero-length buffer, default the destination host to the family
loopback, and enqueue the `Send` task. -/
def sendAssemble (s : Socket) (p : ParsedSend) : SendOut :=
  let auto : Socket × List (List JSVal) :=
    if s.bindState = BindState.UNBOUND then (s.bindBody autoBindArgs, [autoBindArgs])
    else (s, [])
  let list1 := if p.list.isEmpty then [NBuffer.mk []] else p.list
  let host := if p.address.truthy then p.address.strD "" else loopbackOf s.type
  { socket := { auto.1 with
      workQueue := auto.1.workQueue ++ [Task.sendT list1 p.port host p.callback] },
    bindCalls := auto.2 }

/-- Propagate a validation failure (the synchronous throw, before any
state change), otherwise run the effect phase. -/
def sendCont (s : Socket) : Except DgramError ParsedSend → Except DgramError SendOut
  | Except.error e => Except.error e
  | Except.ok p => Except.ok (sendAssemble s p)

/-- `send` (lines 124-180): validate, then perform the effects. -/
def Socket.send (s : Socket) (buffer : JSVal) (args : List JSVal) : Except DgramError SendOut :=
  sendCont s (parseSend buffer args)

/-- `close` (lines 182-188): enqueue a `Close` task (the `on("close")`
callback registration is not modelled). -/
def Socket.close (s : Socket) : Socket :=
  { s with workQueue := s.workQueue ++ [Task.closeT] }

/-- A DNS record as the adapter reads it: only `addresses` is used. -/
structure DNSRecord where
  addresses : List String

/-- The options object `Spawn.perform` passes to `UDPSocket.create`
(lines 333-336): `host` is `record.addresses[0]` (absent when the
record has no addresses), `port` is included only when the requested
port passes `port != undefined && port !== 0`. -/
structure CreateOptions where
  host : Option String
  port : Option JSVal
  addressReuse : Bool

/-- Outcomes of the asynchronous collaborators: the DNS resolver, the
socket manager's `create`, the handle's `send` and `close`.  Each is a
function from the arguments the adapter passes to the recorded outcome
of that call. -/
structure Env where
  resolve : JSVal → Except DgramError DNSRecord
  create : CreateOptions → Except DgramError Nat
  sendDatagram : Option String → Nat → List Nat → Except DgramError Unit
  closeHandle : Nat → Except DgramError Unit

/-- Events a task emits on the socket. -/
inductive Event where
  | listening
  | errorEv (e : DgramError)
  | closeEv

/-- The observable result of one task's `perform`: the socket state
afterwards, the events emitted, the datagrams handed to the handle (in
call order, as (host, port, payload)), the completion-callback
invocations (argument `none` models `callback(null)`), and `raised` -
the exception escaping `perform` into the scheduler's `await`, if any. -/
structure PerformOut where
  socket : Socket
  events : List Event
  transmitted : List (Option String × Nat × List Nat)
  callbackCalls : List (Option DgramError)
  raised : Option DgramError

/-- The creation options built by `Spawn.perform` (lines 332-336):
`port` is included only when `port != undefined && port !== 0`. -/
def spawnOptions (s : Socket) (port : JSVal) (host : Option String) : CreateOptions :=
  if port.looseNeqUndef && !port.isNumZero then
    { host := host, port := some port, addressReuse := s.reuseAddr }
  else
    { host := host, port := none, addressReuse := s.reuseAddr }

/-- `Spawn.perform` (lines 327-346): resolve the bind address, build
the creation options, create the handle.  On success store the handle
and emit `"listening"` (the message pump start is outside the modelled
scope); on any failure reset `_bindState` to `UNBOUND` and emit
`"error"`.  Both paths complete without raising (full try/catch). -/
def performSpawnCreate (s : Socket) : Except DgramError Nat → PerformOut
  | Except.error e =>
      { socket := { s with bindState := BindState.UNBOUND },
        events := [Event.errorEv e], transmitted := [], callbackCalls := [],
        raised := none }
  | Except.ok h =>
      { socket := { s with handle := some h },
        events := [Event.listening], transmitted := [], callbackCalls := [],
        raised := none }

def performSpawnCont (env : Env) (s : Socket) (port : JSVal) :
    Except DgramError DNSRecord → PerformOut
  | Except.error e =>
      { socket := { s with bindState := BindState.UNBOUND },
        events := [Event.errorEv e], transmitted := [], callbackCalls := [],
        raised := none }
  | Except.ok record =>
      performSpawnCreate s (env.create (spawnOptions s port record.addresses.head?))

def performSpawn (env : Env) (s : Socket) (address : JSVal) (port : JSVal) : PerformOut :=
  performSpawnCont env s port (env.resolve address)

/-- The sequential transmission loop of `Send.perform` (lines 368-370):
each buffer is handed to the handle in list order, each call awaited
before the next; the first failure stops the loop.  Returns the calls
made (the failing one included) and the error that stopped the loop. -/
def sendLoop (env : Env) (host : Option String) (port : Nat) :
    List NBuffer → List (Option String × Nat × List Nat) × Option DgramError
  | [] => ([], none)
  | b :: rest =>
      match env.sendDatagram host port b.buffer with
      | Except.error e => ([(host, port, b.buffer)], some e)
      | Except.ok _ =>
          let r := sendLoop env host port rest
          ((host, port, b.buffer) :: r.1, r.2)

/-- The tail of `Send.perform` (lines 375-383): after the loop, invoke
the callback (when present) with `null` on success - the fixed 20ms
delay is not modelled - or with the error that stopped the loop. -/
def sendDone (s : Socket) (callback : Option Nat) :
    List (Option String × Nat × List Nat) × Option DgramError → PerformOut
  | (ts, some e) =>
      { socket := s, events := [], transmitted := ts,
        callbackCalls := match callback with | some _ => [some e] | none => [],
        raised := none }
  | (ts, none) =>
      { socket := s, events := [], transmitted := ts,
        callbackCalls := match callback with | some _ => [none] | none => [],
        raised := none }

/-- The handle test of `Send.perform` (line 366): with no live handle
nothing at all happens; otherwise run the transmission loop. -/
def performSendOnHandle (env : Env) (s : Socket) (list : List NBuffer) (port : Nat)
    (callback : Option Nat) (host : Option String) : Option Nat → PerformOut
  | none =>
      { socket := s, events := [], transmitted := [], callbackCalls := [],
        raised := none }
  | some _ => sendDone s callback (sendLoop env host port list)

/-- The resolution step of `Send.perform` (line 364): it runs before
the handle test and outside the try block, so a resolution failure
escapes the task (`raised`); on success the first resolved address is
the destination host. -/
def performSendCont (env : Env) (s : Socket) (list : List NBuffer) (port : Nat)
    (callback : Option Nat) : Except DgramError DNSRecord → PerformOut
  | Except.error e =>
      { socket := s, events := [], transmitted := [], callbackCalls := [],
        raised := some e }
  | Except.ok record =>
      performSendOnHandle env s list port callback record.addresses.head? s.handle

/-- `Send.perform` (lines 361-385): re-resolve the destination, then
(only with a live handle) transmit the buffers sequentially and invoke
the callback; no event is ever emitted and, past the resolution step,
nothing is raised. -/
def performSend (env : Env) (s : Socket) (list : List NBuffer) (port : Nat)
    (address : String) (callback : Option Nat) : PerformOut :=
  performSendCont env s list port callback (env.resolve (JSVal.str address))

/-- `Close.perform` (lines 393-403): `_healthCheck` throws not-running
when no handle is live, which the catch turns into an `"error"` event;
otherwise the handle field is cleared first and only then is the
underlying close awaited (so the result has no handle even when the
close fails), a closure failure again becoming an `"error"` event.  The
`"close"` emission is commented out in the source: a `Close` task never
emits it.  Nothing is ever raised (full try/catch). -/
def performCloseRes (s1 : Socket) : Except DgramError Unit → PerformOut
  | Except.error e =>
      { socket := s1, events := [Event.errorEv e], transmitted := [],
        callbackCalls := [], raised := none }
  | Except.ok _ =>
      { socket := s1, events := [], transmitted := [], callbackCalls := [],
        raised := none }

def performCloseOnHandle (env : Env) (s : Socket) : Option Nat → PerformOut
  | none =>
      { socket := s, events := [Event.errorEv DgramError.notRunning],
        transmitted := [], callbackCalls := [], raised := none }
  | some h => performCloseRes { s with handle := none } (env.closeHandle h)

def performClose (env : Env) (s : Socket) : PerformOut :=
  performCloseOnHandle env s s.handle

/-- Dispatch a task to its `perform`. -/
def performTask (env : Env) (s : Socket) : Task → PerformOut
  | Task.spawn a p => performSpawn env s a p
  | Task.sendT l p a c => performSend env s l p a c
  | Task.closeT => performClose env s

/-- One externally observable action on a socket: a public method call,
or the scheduler performing the task at the front of the queue with
recorded collaborator outcomes `env`.  A method call that throws leaves
the socket unchanged (every synchronous throw in the source happens
before any state mutation). -/
inductive Action where
  | bindCall (args : List JSVal)
  | sendCall (buffer : JSVal) (args : List JSVal)
  | closeCall
  | performNext (env : Env)

/-- A thrown `bind` leaves the socket unchanged (the throw happens
before any mutation). -/
def applyBindResult (s : Socket) : Except DgramError Socket → Socket
  | Except.ok s' => s'
  | Except.error _ => s

/-- A thrown `send` leaves the socket unchanged. -/
def applySendResult (s : Socket) : Except DgramError SendOut → Socket
  | Except.ok o => o.socket
  | Except.error _ => s

/-- The scheduler performing the task at the front of the queue (per
the FIFO discipline established for the drain loop); an empty queue is
a no-op. -/
def applyPerformNext (env : Env) (s : Socket) : List Task → Socket
  | [] => s
  | t :: rest => (performTask env { s with workQueue := rest } t).socket

/-- Apply one action to a socket. -/
def applyAction (s : Socket) : Action → Socket
  | Action.bindCall args => applyBindResult s (s.bind args)
  | Action.sendCall b args => applySendResult s (s.send b args)
  | Action.closeCall => s.close
  | Action.performNext env => applyPerformNext env s s.workQueue

/-- Run a sequence of actions. -/
def runActions (s : Socket) (acts : List Action) : Socket :=
  acts.foldl applyAction s

/-- The scheduler state of lines 190-208: the `workQueue` array, the
drain loop's `index` (`pos`), the `isIdle` flag, and the trace of tasks
performed so far (in completion order).  The source's `awake` keeps
performed tasks in the array until the loop finishes and only then sets
`workQueue.length = 0`; `pos` is the loop index into the array. -/
structure SchedState (α : Type) where
  workQueue : List α
  pos : Nat
  isIdle : Bool
  performed : List α

/-- What the environment can do to the scheduler: `push t` is a
`schedule(t)` call, `drain` is the loop completing one `await
task.perform()` step (or finishing when the index has caught up). -/
inductive SchedEvent (α : Type) where
  | push (t : α)
  | drain

/-- The initial scheduler state (constructor lines 111-114): idle with
an empty queue. -/
def schedInit {α : Type} : SchedState α :=
  { workQueue := [], pos := 0, isIdle := true, performed := [] }

/-- One scheduler step.  `schedule` (lines 190-195) appends and, only
when the socket is idle, starts the drain loop (modelled as clearing
the idle flag; `awake`'s own guard makes a call on a busy socket a
no-op).  A `drain` step on a busy scheduler performs the task at the
loop index if the index is still below the queue length (the `while`
re-reads the length each iteration, so tasks pushed meanwhile are
picked up), and otherwise ends the loop: clear the array, reset the
index, set idle. -/
def schedStep {α : Type} (s : SchedState α) : SchedEvent α → SchedState α
  | SchedEvent.push t =>
      let s1 := { s with workQueue := s.workQueue ++ [t] }
      if s1.isIdle then { s1 with isIdle := false } else s1
  | SchedEvent.drain =>
      if s.isIdle then s
      else if h : s.pos < s.workQueue.length then
        { s with performed := s.performed ++ [s.workQueue.get ⟨s.pos, h⟩],
                 pos := s.pos + 1 }
      else
        { s with workQueue := [], pos := 0, isIdle := true }

/-- Run the scheduler over a sequence of events. -/
def schedRun {α : Type} (s : SchedState α) (evs : List (SchedEvent α)) : SchedState α :=
  evs.foldl schedStep s

/-- The tasks scheduled by an event sequence, in submission order. -/
def enqueuedOf {α : Type} (evs : List (SchedEvent α)) : List α :=
  evs.filterMap (fun e => match e with
    | SchedEvent.push t => some t
    | SchedEvent.drain => none)

/-- The scheduler invariant: the performed trace followed by the
not-yet-performed remainder of the queue is exactly the submission
order; the loop index never passes the queue length; an idle scheduler
has an empty queue and a reset index. -/
def SchedInv {α : Type} (enq : List α) (s : SchedState α) : Prop :=
  s.performed ++ s.workQueue.drop s.pos = enq ∧
  s.pos ≤ s.workQueue.length ∧
  (s.isIdle = true → s.workQueue = [] ∧ s.pos = 0)

theorem schedInv_init {α : Type} : SchedInv ([] : List α) schedInit := by
  refine ⟨rfl, Nat.le_refl _, fun _ => ⟨rfl, rfl⟩⟩

theorem schedInv_step {α : Type} {enq : List α} {s : SchedState α}
    (hinv : SchedInv enq s) (e : SchedEvent α) :
    SchedInv (enq ++ enqueuedOf [e]) (schedStep s e) := by
  obtain ⟨horder, hpos, hidle⟩ := hinv
  cases e with
  | push t =>
      have hdrop : (s.workQueue ++ [t]).drop s.pos = s.workQueue.drop s.pos ++ [t] :=
        List.drop_append_of_le_length hpos
      by_cases hi : s.isIdle = true
      · simp only [schedStep, hi, if_pos]
        refine ⟨?_, ?_, ?_⟩
        · simp only [enqueuedOf, List.filterMap]
          rw [hdrop, ← List.append_assoc, horder]
        · exact Nat.le_trans hpos (by simp)
        · intro h; simp at h
      · simp only [schedStep, hi]
        simp only [Bool.not_eq_true] at hi
        refine ⟨?_, ?_, ?_⟩
        · simp only [enqueuedOf, List.filterMap, hi, if_neg Bool.false_ne_true]
          rw [hdrop, ← List.append_assoc, horder]
        · simp only [hi, if_neg Bool.false_ne_true]
          exact Nat.le_trans hpos (by simp)
        · simp only [hi, if_neg Bool.false_ne_true]
          intro h; exact absurd h (by simp [hi])
  | drain =>
      by_cases hi : s.isIdle = true
      · simp only [schedStep, hi, if_pos]
        exact ⟨by simpa [enqueuedOf] using horder, hpos, fun _ => hidle hi⟩
      · simp only [schedStep, hi, Bool.not_eq_true] at *
        simp only [hi, Bool.false_eq_true, if_neg, ite_false]
        by_cases hlt : s.pos < s.workQueue.length
        · simp only [hlt, dif_pos]
          refine ⟨?_, hlt, ?_⟩
          · have : s.workQueue.drop s.pos =
                s.workQueue.get ⟨s.pos, hlt⟩ :: s.workQueue.drop (s.pos + 1) := by
              rw [List.drop_eq_getElem_cons hlt]; rfl
            simp only [enqueuedOf, List.filterMap]
            rw [← horder, this]; simp
          · intro h; simp at h
        · simp only [hlt, dif_neg]
          refine ⟨?_, Nat.zero_le _, fun _ => ⟨rfl, rfl⟩⟩
          have hge : s.workQueue.length ≤ s.pos := Nat.le_of_not_lt hlt
          have : s.workQueue.drop s.pos = [] := List.drop_eq_nil_of_le hge
          simp only [enqueuedOf, List.filterMap]
          rw [← horder, this]; simp

theorem schedInv_run {α : Type} (evs : List (SchedEvent α)) :
    ∀ (s : SchedState α) (enq : List α), SchedInv enq s →
      SchedInv (enq ++ enqueuedOf evs) (schedRun s evs) := by
  induction evs with
  | nil => intro s enq h; simpa [schedRun, enqueuedOf] using h
  | cons e rest ih =>
      intro s enq h
      have h1 := schedInv_step h e
      have h2 := ih (schedStep s e) (enq ++ enqueuedOf [e]) h1
      have : enq ++ enqueuedOf [e] ++ enqueuedOf rest = enq ++ enqueuedOf (e :: rest) := by
        simp [enqueuedOf, List.filterMap_cons]
        cases e <;> simp
      rw [this] at h2
      simpa [schedRun] using h2

/-- Draining alone finishes the work: from any state satisfying the
invariant, `workQueue.length - pos + 1` drain steps perform every
remaining task (those pushed while the loop was already running
included) and leave the scheduler idle, without any further
`schedule`/`awake` call. -/
theorem sched_drain_all {α : Type} : ∀ (n : Nat) (s : SchedState α) (enq : List α),
    SchedInv enq s → s.workQueue.length - s.pos = n →
      (schedRun s (List.replicate (n + 1) SchedEvent.drain)).performed = enq ∧
      (schedRun s (List.replicate (n + 1) SchedEvent.drain)).isIdle = true := by
  intro n
  induction n with
  | zero =>
      intro s enq hinv hn
      obtain ⟨horder, hpos, hidle⟩ := hinv
      by_cases hi : s.isIdle = true
      · obtain ⟨hq, hp⟩ := hidle hi
        have hdone : s.performed = enq := by
          rw [← horder, hq]; simp
        simp [schedRun, List.replicate, schedStep, hi, hdone]
      · simp only [Bool.not_eq_true] at hi
        have hge : s.workQueue.length ≤ s.pos := by omega
        have hnil : s.workQueue.drop s.pos = [] := List.drop_eq_nil_of_le hge
        have hdone : s.performed = enq := by rw [← horder, hnil]; simp
        have hnlt : ¬ s.pos < s.workQueue.length := Nat.not_lt.mpr hge
        simp [schedRun, List.replicate, schedStep, hi, hnlt, hdone]
  | succ n ih =>
      intro s enq hinv hn
      obtain ⟨horder, hpos, hidle⟩ := hinv
      have hi : s.isIdle = false := by
        by_contra hh
        simp only [Bool.not_eq_false] at hh
        obtain ⟨hq, hp⟩ := hidle hh
        rw [hq, hp] at hn; simp at hn
      have hlt : s.pos < s.workQueue.length := by omega
      have hstep := schedInv_step ⟨horder, hpos, hidle⟩ (SchedEvent.drain (α := α))
      simp only [enqueuedOf, List.filterMap] at hstep
      have hstep' : SchedInv enq (schedStep s SchedEvent.drain) := by
        simpa using hstep
      have hlen : (schedStep s SchedEvent.drain).workQueue.length -
          (schedStep s SchedEvent.drain).pos = n := by
        simp only [schedStep, hi, Bool.false_eq_true, if_neg, ite_false, hlt, dif_pos]
        omega
      have := ih (schedStep s SchedEvent.drain) enq hstep' hlen
      have hrep : List.replicate (n + 1 + 1) (SchedEvent.drain (α := α)) =
          SchedEvent.drain :: List.replicate (n + 1) SchedEvent.drain := rfl
      rw [hrep]
      simpa [schedRun] using this

/-- C1: for every sequence of `schedule` calls and drain-loop steps on
a socket's scheduler, the tasks performed so far followed by the
not-yet-performed part of the queue equal the tasks in submission
order (so tasks are performed one at a time, strictly FIFO), and from
any reachable state the already-running drain loop alone - with no
further `awake` invocation, the idle flag having blocked a second
loop - performs every task scheduled so far, tasks enqueued while
the loop was running included, and returns the scheduler to idle. -/
theorem scheduler_fifo_single_loop (evs : List (SchedEvent Task)) :
    (schedRun schedInit evs).performed ++
      ((schedRun schedInit evs).workQueue.drop (schedRun schedInit evs).pos) =
        enqueuedOf evs ∧
    (schedRun (schedRun schedInit evs)
        (List.replicate ((schedRun schedInit evs).workQueue.length -
          (schedRun schedInit evs).pos + 1) SchedEvent.drain)).performed =
      enqueuedOf evs ∧
    (schedRun (schedRun schedInit evs)
        (List.replicate ((schedRun schedInit evs).workQueue.length -
          (schedRun schedInit evs).pos + 1) SchedEvent.drain)).isIdle = true := by
  have hinv := schedInv_run evs schedInit [] schedInv_init
  simp only [List.nil_append] at hinv
  have hdrain := sched_drain_all ((schedRun schedInit evs).workQueue.length -
      (schedRun schedInit evs).pos) (schedRun schedInit evs) (enqueuedOf evs) hinv rfl
  exact ⟨hinv.1, hdrain.1, hdrain.2⟩

/-- C2: `bind` on a socket whose `_bindState` is not `UNBOUND` throws
already-bound synchronously; on an `UNBOUND` socket it succeeds,
setting `_bindState` to `BINDING` synchronously (before any
asynchronous work: the returned state is what later calls observe), so
an immediately following second `bind` throws already-bound even
though the Spawn task has not been performed. -/
theorem bind_already_bound (s : Socket) (args args2 : List JSVal) :
    (s.bindState ≠ BindState.UNBOUND →
      s.bind args = Except.error DgramError.alreadyBound) ∧
    (s.bindState = BindState.UNBOUND →
      s.bind args = Except.ok (s.bindBody args) ∧
      (s.bindBody args).bindState = BindState.BINDING ∧
      (s.bindBody args).bind args2 = Except.error DgramError.alreadyBound) := by
  constructor
  · intro h
    simp [Socket.bind, h]
  · intro h
    have hB : (s.bindBody args).bindState = BindState.BINDING := rfl
    refine ⟨by simp [Socket.bind, h], hB, by simp [Socket.bind, hB]⟩

theorem bind_already_bound_witness :
    ((Socket.new SocketType.udp4 false).bindState = BindState.UNBOUND) ∧
    ((Socket.new SocketType.udp4 false).bind [JSVal.num 8080] =
      Except.ok ((Socket.new SocketType.udp4 false).bindBody [JSVal.num 8080]) ∧
    ((Socket.new SocketType.udp4 false).bindBody [JSVal.num 8080]).bindState =
      BindState.BINDING ∧
    ((Socket.new SocketType.udp4 false).bindBody [JSVal.num 8080]).bind [JSVal.num 9090] =
      Except.error DgramError.alreadyBound) :=
  ⟨rfl, (bind_already_bound (Socket.new SocketType.udp4 false)
    [JSVal.num 8080] [JSVal.num 9090]).2 rfl⟩

/-- The implicit bind of `send` (line 171) enqueues a Spawn for the
family wildcard address and port 0: `bindBody` applied to
`autoBindArgs`. -/
theorem bindBody_auto (s : Socket) :
    s.bindBody autoBindArgs =
      { s with bindState := BindState.BINDING,
               workQueue := s.workQueue ++ [Task.spawn (wildcardJS s.type) (JSVal.num 0)] } := rfl

/-- Shape of a queue that received two new tasks. -/
theorem queue_two_shape (q : List Task) (t1 t2 : Task) :
    ((q ++ [t1]) ++ [t2]).take q.length = q ∧
    (((q ++ [t1]) ++ [t2]).drop q.length).length = 2 ∧
    (((q ++ [t1]) ++ [t2]).drop q.length).getD 0 Task.closeT = t1 ∧
    (((q ++ [t1]) ++ [t2]).drop q.length).getD 1 Task.closeT = t2 := by
  have h : (q ++ [t1]) ++ [t2] = q ++ [t1, t2] := by simp
  rw [h]
  refine ⟨?_, ?_, ?_, ?_⟩
  · exact List.take_left q [t1, t2]
  · rw [List.drop_left q [t1, t2]]; rfl
  · rw [List.drop_left q [t1, t2]]; rfl
  · rw [List.drop_left q [t1, t2]]; rfl

/-- The effect phase on an `UNBOUND` socket: auto-bind (Spawn for the
wildcard address and port 0 appended) followed by the Send task. -/
theorem sendAssemble_unbound (s : Socket) (p : ParsedSend)
    (hU : s.bindState = BindState.UNBOUND) :
    sendAssemble s p =
      { socket :=
          { s with
            bindState := BindState.BINDING,
            workQueue := (s.workQueue ++ [Task.spawn (wildcardJS s.type) (JSVal.num 0)]) ++
              [Task.sendT (if p.list.isEmpty then [NBuffer.mk []] else p.list) p.port
                (if p.address.truthy then p.address.strD "" else loopbackOf s.type) p.callback] },
        bindCalls := [autoBindArgs] } := by
  unfold sendAssemble
  rw [if_pos hU]
  exact rfl

/-- C3: a successful `send` on a socket whose `_bindState` is
`UNBOUND` performs exactly one internal `bind` call, with the options
object `\x7b port: 0, exclusive: true \x7d`, and the queue afterwards is the
old queue followed by first the Spawn of that implicit bind (wildcard
address, port 0) and then the Send task - so the bind's task runs
ahead of the send's. -/
theorem send_autobind (s : Socket) (buffer : JSVal) (args : List JSVal) (out : SendOut)
    (hU : s.bindState = BindState.UNBOUND)
    (h : s.send buffer args = Except.ok out) :
    out.bindCalls = [autoBindArgs] ∧
    out.socket.workQueue.take s.workQueue.length = s.workQueue ∧
    (out.socket.workQueue.drop s.workQueue.length).length = 2 ∧
    (out.socket.workQueue.drop s.workQueue.length).getD 0 Task.closeT =
      Task.spawn (wildcardJS s.type) (JSVal.num 0) ∧
    isSendTask ((out.socket.workQueue.drop s.workQueue.length).getD 1 Task.closeT) = true := by
  unfold Socket.send at h
  cases hp : parseSend buffer args with
  | error e => rw [hp] at h; simp [sendCont] at h
  | ok p =>
      rw [hp] at h
      simp only [sendCont, Except.ok.injEq] at h
      rw [← h, sendAssemble_unbound s p hU]
      have hqs := queue_two_shape s.workQueue (Task.spawn (wildcardJS s.type) (JSVal.num 0))
        (Task.sendT (if p.list.isEmpty then [NBuffer.mk []] else p.list) p.port
          (if p.address.truthy then p.address.strD "" else loopbackOf s.type) p.callback)
      exact ⟨rfl, hqs.1, hqs.2.1, hqs.2.2.1, (congrArg isSendTask hqs.2.2.2).trans rfl⟩

/-- Witness output of `send_autobind_witness`. -/
def sendAutoOut : SendOut :=
  { socket := { type := SocketType.udp4, reuseAddr := false,
                bindState := BindState.BINDING, handle := none,
                workQueue := [Task.spawn (JSVal.str "0.0.0.0") (JSVal.num 0),
                  Task.sendT [NBuffer.fromString "hi"] 53 "example.com" none] },
    bindCalls := [autoBindArgs] }

theorem send_autobind_witness :
    ((Socket.new SocketType.udp4 false).bindState = BindState.UNBOUND) ∧
    ((Socket.new SocketType.udp4 false).send (JSVal.str "hi")
        [JSVal.num 53, JSVal.str "example.com"] = Except.ok sendAutoOut) ∧
    (sendAutoOut.bindCalls = [autoBindArgs] ∧
     sendAutoOut.socket.workQueue.take ((Socket.new SocketType.udp4 false).workQueue.length) =
       (Socket.new SocketType.udp4 false).workQueue ∧
     (sendAutoOut.socket.workQueue.drop ((Socket.new SocketType.udp4 false).workQueue.length)).length = 2 ∧
     (sendAutoOut.socket.workQueue.drop ((Socket.new SocketType.udp4 false).workQueue.length)).getD 0 Task.closeT =
       Task.spawn (wildcardJS (Socket.new SocketType.udp4 false).type) (JSVal.num 0) ∧
     isSendTask ((sendAutoOut.socket.workQueue.drop
       ((Socket.new SocketType.udp4 false).workQueue.length)).getD 1 Task.closeT) = true) :=
  ⟨rfl, rfl, send_autobind (Socket.new SocketType.udp4 false) (JSVal.str "hi")
    [JSVal.num 53, JSVal.str "example.com"] sendAutoOut rfl rfl⟩

/-- A concrete environment in which every collaborator call succeeds. -/
def envOk : Env :=
  { resolve := fun _ => Except.ok ⟨["93.184.216.34"]⟩,
    create := fun _ => Except.ok 1,
    sendDatagram := fun _ _ _ => Except.ok (),
    closeHandle := fun _ => Except.ok () }

/-- A concrete environment whose resolver rejects every lookup. -/
def envResolveFail : Env :=
  { resolve := fun _ => Except.error (DgramError.sys 7),
    create := fun _ => Except.ok 1,
    sendDatagram := fun _ _ _ => Except.ok (),
    closeHandle := fun _ => Except.ok () }

/-- C4 counterexample: a Send task executing while the socket has no
live handle does raise an error when the destination resolution fails,
because `Send.perform` awaits `dns.resolve` before the `if (_handle)`
guard and outside the try block (line 364) - refuting "no error is
raised" for such tasks. -/
theorem send_perform_no_handle_raises :
    (performSend envResolveFail (Socket.new SocketType.udp4 false)
      [NBuffer.fromString "a"] 1234 "example.com" (some 0)).raised =
      some (DgramError.sys 7) := rfl

/-- C4 (amended): a Send task that executes while the socket has no
live handle and whose destination resolution succeeds does nothing:
no datagram is handed to the handle, no event is emitted, nothing is
raised, and the completion callback is never invoked.  (When the
resolution fails, the failure is raised out of the task instead - see
the counterexample - and still nothing is transmitted or invoked.) -/
theorem send_perform_no_handle_skips (env : Env) (s : Socket) (list : List NBuffer)
    (port : Nat) (address : String) (callback : Option Nat) (record : DNSRecord)
    (hres : env.resolve (JSVal.str address) = Except.ok record)
    (hh : s.handle = none) :
    performSend env s list port address callback =
      { socket := s, events := [], transmitted := [], callbackCalls := [],
        raised := none } := by
  unfold performSend
  rw [hres]
  simp only [performSendCont]
  rw [hh]
  simp only [performSendOnHandle]

theorem send_perform_no_handle_skips_witness :
    (envOk.resolve (JSVal.str "example.com") =
      Except.ok (⟨["93.184.216.34"]⟩ : DNSRecord)) ∧
    ((Socket.new SocketType.udp4 false).handle = none) ∧
    (performSend envOk (Socket.new SocketType.udp4 false)
        [NBuffer.fromString "a"] 1234 "example.com" (some 0) =
      { socket := Socket.new SocketType.udp4 false, events := [], transmitted := [],
        callbackCalls := [], raised := none }) :=
  ⟨rfl, rfl, send_perform_no_handle_skips envOk (Socket.new SocketType.udp4 false)
    [NBuffer.fromString "a"] 1234 "example.com" (some 0) ⟨["93.184.216.34"]⟩ rfl rfl⟩

/-- C5: a Spawn task whose resolution fails, or whose handle creation
fails, resets `_bindState` to `UNBOUND`, emits a single `"error"`
event with the failure, leaves the handle field untouched (so it stays
absent), transmits nothing, invokes no callback - and, in every case
whatsoever, completes without raising, so the scheduler's drain loop
goes on to the next task. -/
theorem spawn_perform_failure (env : Env) (s : Socket) (address port : JSVal) (e : DgramError) :
    (env.resolve address = Except.error e →
      performSpawn env s address port =
        { socket := { s with bindState := BindState.UNBOUND },
          events := [Event.errorEv e], transmitted := [], callbackCalls := [],
          raised := none }) ∧
    (∀ record, env.resolve address = Except.ok record →
      env.create (spawnOptions s port record.addresses.head?) = Except.error e →
      performSpawn env s address port =
        { socket := { s with bindState := BindState.UNBOUND },
          events := [Event.errorEv e], transmitted := [], callbackCalls := [],
          raised := none }) ∧
    (performSpawn env s address port).raised = none := by
  refine ⟨?_, ?_, ?_⟩
  · intro hres
    unfold performSpawn
    rw [hres]
    simp [performSpawnCont]
  · intro record hres hcreate
    unfold performSpawn
    rw [hres]
    simp only [performSpawnCont]
    rw [hcreate]
    simp [performSpawnCreate]
  · unfold performSpawn
    cases hres : env.resolve address with
    | error e' => simp [performSpawnCont]
    | ok record =>
        simp only [performSpawnCont]
        cases hc : env.create (spawnOptions s port record.addresses.head?) with
        | error e' => simp [performSpawnCreate]
        | ok h => simp [performSpawnCreate]

theorem spawn_perform_failure_witness :
    (envResolveFail.resolve (JSVal.str "0.0.0.0") = Except.error (DgramError.sys 7)) ∧
    (performSpawn envResolveFail (Socket.new SocketType.udp4 false)
        (JSVal.str "0.0.0.0") (JSVal.num 0) =
      { socket := { Socket.new SocketType.udp4 false with bindState := BindState.UNBOUND },
        events := [Event.errorEv (DgramError.sys 7)], transmitted := [],
        callbackCalls := [], raised := none }) :=
  ⟨rfl, (spawn_perform_failure envResolveFail (Socket.new SocketType.udp4 false)
    (JSVal.str "0.0.0.0") (JSVal.num 0) (DgramError.sys 7)).1 rfl⟩

/-- C7: a Close task on a socket with no live handle emits the
not-running failure as an `"error"` event and raises nothing into the
scheduler; with a live handle, the handle field is already cleared in
the task's result even when the underlying close fails (the source
clears `_handle` before awaiting `handle.close()`), the only possible
event is an `"error"` from a failed closure - and a Close task never
emits a `"close"` event. -/
theorem close_perform_spec (env : Env) (s : Socket) :
    (s.handle = none →
      performClose env s =
        { socket := s, events := [Event.errorEv DgramError.notRunning],
          transmitted := [], callbackCalls := [], raised := none }) ∧
    (∀ h, s.handle = some h →
      (performClose env s).socket.handle = none ∧
      (performClose env s).events = (match env.closeHandle h with
        | Except.ok _ => []
        | Except.error e => [Event.errorEv e]) ∧
      (performClose env s).raised = none) ∧
    Event.closeEv ∉ (performClose env s).events := by
  refine ⟨?_, ?_, ?_⟩
  · intro hh
    unfold performClose
    rw [hh]
    simp [performCloseOnHandle]
  · intro h hh
    unfold performClose
    rw [hh]
    simp only [performCloseOnHandle]
    cases hc : env.closeHandle h with
    | error e => simp [performCloseRes]
    | ok u => simp [performCloseRes]
  · unfold performClose
    cases hh : s.handle with
    | none => simp [performCloseOnHandle]
    | some h =>
        simp only [performCloseOnHandle]
        cases hc : env.closeHandle h with
        | error e => simp [performCloseRes]
        | ok u => simp [performCloseRes]

theorem close_perform_spec_witness :
    ((Socket.new SocketType.udp4 false).handle = none) ∧
    (performClose envOk (Socket.new SocketType.udp4 false) =
      { socket := Socket.new SocketType.udp4 false,
        events := [Event.errorEv DgramError.notRunning],
        transmitted := [], callbackCalls := [], raised := none }) ∧
    (({ Socket.new SocketType.udp4 false with handle := some 3 } : Socket).handle = some 3) ∧
    ((performClose envOk { Socket.new SocketType.udp4 false with handle := some 3 }).socket.handle = none ∧
     (performClose envOk { Socket.new SocketType.udp4 false with handle := some 3 }).events =
       (match envOk.closeHandle 3 with
        | Except.ok _ => []
        | Except.error e => [Event.errorEv e]) ∧
     (performClose envOk { Socket.new SocketType.udp4 false with handle := some 3 }).raised = none) :=
  ⟨rfl,
   (close_perform_spec envOk (Socket.new SocketType.udp4 false)).1 rfl,
   rfl,
   (close_perform_spec envOk { Socket.new SocketType.udp4 false with handle := some 3 }).2.1 3 rfl⟩

/-- Did a computation fail with the bad-port range error? -/
def isBadPortE {α : Type} : Except DgramError α → Bool
  | Except.error (DgramError.badPort _) => true
  | _ => false

/-- Did a computation fail with an invalid-argument-type error? -/
def isInvalidArgE {α : Type} : Except DgramError α → Bool
  | Except.error (DgramError.invalidArgType _) => true
  | _ => false

/-- Did a computation succeed? -/
def stageOk {α : Type} : Except DgramError α → Bool
  | Except.ok _ => true
  | Except.error _ => false

/-- `send` fails with exactly the errors its validation pipeline
fails with. -/
theorem send_err_eq (s : Socket) (buffer : JSVal) (args : List JSVal) (e : DgramError) :
    s.send buffer args = Except.error e ↔ parseSend buffer args = Except.error e := by
  unfold Socket.send
  cases parseSend buffer args <;> simp [sendCont]

/-- `send` produces a bad-port error exactly when its validation
pipeline does. -/
theorem send_badPortE (s : Socket) (buffer : JSVal) (args : List JSVal) :
    isBadPortE (s.send buffer args) = isBadPortE (parseSend buffer args) := by
  unfold Socket.send
  cases parseSend buffer args with
  | error e => cases e <;> exact rfl
  | ok p => exact rfl

/-- When the buffer stage passed and the coerced port is out of range,
validation stops with the bad-port error carrying that coerced value. -/
theorem parseSend_port_out (buffer : JSVal) (args : List JSVal) (l : List NBuffer)
    (hl : listStage buffer args = Except.ok l)
    (hp : toUint32 (effPortArg args) = 0 ∨ 65535 < toUint32 (effPortArg args)) :
    parseSend buffer args = Except.error (DgramError.badPort (toUint32 (effPortArg args))) := by
  simp only [parseSend, hl, parseCont, parsePort]
  rw [if_pos hp]

/-- When the coerced port is in range, validation never produces a
bad-port error. -/
theorem parseSend_port_in (buffer : JSVal) (args : List JSVal) (l : List NBuffer)
    (hl : listStage buffer args = Except.ok l)
    (hp : ¬(toUint32 (effPortArg args) = 0 ∨ 65535 < toUint32 (effPortArg args))) :
    isBadPortE (parseSend buffer args) = false := by
  simp only [parseSend, hl, parseCont, parsePort]
  rw [if_neg hp]
  by_cases hf : (effAddrArg args).isFunction
  · rw [if_pos hf]; rfl
  · rw [if_neg hf]
    by_cases ht : ((effAddrArg args).truthy && !(effAddrArg args).isString) = true
    · rw [if_pos ht]; rfl
    · rw [if_neg ht]; rfl

/-- C6: provided the buffer argument normalizes (so validation reaches
the port check at line 156), `send` throws the bad-port range error if
and only if the port argument coerced by `>>> 0` - ToNumber followed
by ToUint32, so a numeric string such as `"8080"` coerces to its value
- is `0` or above `65535`, and in that case the error is raised from
the synchronous validation: `send` returns the error without having
touched the socket, so no task is enqueued. -/
theorem send_bad_port_iff (s : Socket) (buffer : JSVal) (args : List JSVal)
    (hbuf : stageOk (listStage buffer args) = true) :
    (isBadPortE (s.send buffer args) =
      (decide (toUint32 (effPortArg args) = 0) ||
        decide (65535 < toUint32 (effPortArg args)))) ∧
    ((toUint32 (effPortArg args) = 0 ∨ 65535 < toUint32 (effPortArg args)) →
      s.send buffer args = Except.error (DgramError.badPort (toUint32 (effPortArg args)))) := by
  cases hl : listStage buffer args with
  | error e => rw [hl] at hbuf; exact absurd hbuf (by simp [stageOk])
  | ok l =>
      constructor
      · rw [send_badPortE]
        by_cases hp : toUint32 (effPortArg args) = 0 ∨ 65535 < toUint32 (effPortArg args)
        · rw [parseSend_port_out buffer args l hl hp]
          rcases hp with hp | hp <;> simp [isBadPortE, hp]
        · rw [parseSend_port_in buffer args l hl hp]
          push_neg at hp
          simp [hp.1, hp.2]
      · intro hp
        exact (send_err_eq s buffer args _).mpr (parseSend_port_out buffer args l hl hp)

theorem send_bad_port_iff_witness :
    (stageOk (listStage (JSVal.str "a") [JSVal.num 70000]) = true) ∧
    ((Socket.new SocketType.udp4 false).send (JSVal.str "a") [JSVal.num 70000] =
      Except.error (DgramError.badPort 70000)) ∧
    (stageOk (listStage (JSVal.str "a") [JSVal.num 0]) = true) ∧
    ((Socket.new SocketType.udp4 false).send (JSVal.str "a") [JSVal.num 0] =
      Except.error (DgramError.badPort 0)) ∧
    (stageOk (listStage (JSVal.str "a") [JSVal.str "8080", JSVal.str "example.com"]) = true) ∧
    (isBadPortE ((Socket.new SocketType.udp4 false).send (JSVal.str "a")
      [JSVal.str "8080", JSVal.str "example.com"]) = false) ∧
    (stageOk ((Socket.new SocketType.udp4 false).send (JSVal.str "a")
      [JSVal.str "8080", JSVal.str "example.com"]) = true) ∧
    ((Socket.new SocketType.udp4 false).send (JSVal.str "a")
      [JSVal.str "70000", JSVal.str "example.com"] =
        Except.error (DgramError.badPort 70000)) :=
  ⟨rfl,
   (send_bad_port_iff (Socket.new SocketType.udp4 false) (JSVal.str "a")
     [JSVal.num 70000] rfl).2 (Or.inr (by decide)),
   rfl,
   (send_bad_port_iff (Socket.new SocketType.udp4 false) (JSVal.str "a")
     [JSVal.num 0] rfl).2 (Or.inl (by decide)),
   rfl,
   (send_bad_port_iff (Socket.new SocketType.udp4 false) (JSVal.str "a")
     [JSVal.str "8080", JSVal.str "example.com"] rfl).1,
   rfl,
   (send_bad_port_iff (Socket.new SocketType.udp4 false) (JSVal.str "a")
     [JSVal.str "70000", JSVal.str "example.com"] rfl).2 (Or.inr (by decide))⟩

/-- A list with an unacceptable element makes `fixBufferList` fail. -/
theorem fixBufferList_none (es : List JSVal) (h : es.all goodElem = false) :
    fixBufferList es = none := by
  induction es with
  | nil => simp at h
  | cons v rest ih =>
      cases v with
      | str s =>
          simp only [List.all_cons, goodElem, Bool.true_and] at h
          simp [fixBufferList, ih h]
      | u8 b =>
          simp only [List.all_cons, goodElem, Bool.true_and] at h
          simp [fixBufferList, ih h]
      | undefv => exact rfl
      | nullv => exact rfl
      | boolv b => exact rfl
      | num n => exact rfl
      | fn i => exact rfl
      | arr es2 => exact rfl
      | opts p a e => exact rfl

/-- A buffer argument of invalid shape makes the buffer stage fail
with an invalid-argument-type error, in both argument shapes. -/
theorem listStage_bad (buffer : JSVal) (args : List JSVal)
    (hbad : goodBuffer buffer = false) :
    isInvalidArgE (listStage buffer args) = true := by
  cases buffer
  case str s => simp [goodBuffer] at hbad
  case u8 b => simp [goodBuffer] at hbad
  case arr es =>
      have hfb : fixBufferList es = none :=
        fixBufferList_none es (by simpa [goodBuffer] using hbad)
      by_cases hs : shapeSliced args
      · simp [listStage, hs, sliceBuffer, sliceCont, isInvalidArgE]
      · simp [listStage, hs, listNormalize, hfb, isInvalidArgE]
  all_goals
    by_cases hs : shapeSliced args <;>
      simp [listStage, hs, sliceBuffer, sliceCont, listNormalize, isInvalidArgE]

/-- C9 counterexample: `send` in the offset/length shape with a
negative length does not throw: `length >>> 0` turns `-1` into
`4294967295` and `slice` clamps, so the whole buffer is sent and the
call succeeds, enqueuing the implicit bind's Spawn and the Send -
refuting "send fails synchronously with an invalid-argument-type error"
for negative lengths. -/
theorem send_negative_length_accepted :
    (Socket.new SocketType.udp4 false).send (JSVal.u8 ⟨[1, 2, 3]⟩)
        [JSVal.num 0, JSVal.num (-1), JSVal.num 9, JSVal.str "example.com"] =
      Except.ok
        { socket :=
            { type := SocketType.udp4, reuseAddr := false,
              bindState := BindState.BINDING, handle := none,
              workQueue := [Task.spawn (JSVal.str "0.0.0.0") (JSVal.num 0),
                Task.sendT [⟨[1, 2, 3]⟩] 9 "example.com" none] },
          bindCalls := [autoBindArgs] } := rfl

/-- C9 (amended): a buffer argument that is neither a string, a byte
array, nor a list of those fails synchronously with an
invalid-argument-type error - the error return happens before any
state change, so no task is enqueued.  A negative length, however, is
not rejected: in the offset/length shape it is coerced by `>>> 0` and
the slice is clamped to the buffer's bounds, so the call proceeds (see
the counterexample for a concrete run). -/
theorem send_bad_buffer_rejected (s : Socket) (buffer : JSVal) (args : List JSVal) :
    (goodBuffer buffer = false → isInvalidArgE (s.send buffer args) = true) ∧
    (∀ b : NBuffer, shapeSliced args = true →
      listStage (JSVal.u8 b) args =
        Except.ok [⟨(b.buffer.take (toUint32 (args.getD 0 JSVal.undefv) +
          toUint32 (args.getD 1 JSVal.undefv))).drop (toUint32 (args.getD 0 JSVal.undefv))⟩]) := by
  constructor
  · intro hbad
    have hl := listStage_bad buffer args hbad
    cases hls : listStage buffer args with
    | ok l => rw [hls] at hl; exact absurd hl (by simp [isInvalidArgE])
    | error e =>
        rw [hls] at hl
        cases e with
        | invalidArgType n =>
            have hsend : s.send buffer args = Except.error (DgramError.invalidArgType n) := by
              unfold Socket.send parseSend
              rw [hls]
              exact rfl
            rw [hsend]
            exact rfl
        | badPort p => exact absurd hl (by simp [isInvalidArgE])
        | alreadyBound => exact absurd hl (by simp [isInvalidArgE])
        | notRunning => exact absurd hl (by simp [isInvalidArgE])
        | missingArgs n => exact absurd hl (by simp [isInvalidArgE])
        | sys c => exact absurd hl (by simp [isInvalidArgE])
  · intro b hs
    simp [listStage, hs, sliceBuffer, sliceCont, listNormalize]

theorem send_bad_buffer_rejected_witness :
    (goodBuffer (JSVal.num 5) = false) ∧
    (isInvalidArgE ((Socket.new SocketType.udp4 false).send (JSVal.num 5)
      [JSVal.num 0, JSVal.num 1, JSVal.num 1234, JSVal.str "h"]) = true) ∧
    (shapeSliced [JSVal.num 0, JSVal.num 1, JSVal.num 1234, JSVal.str "h"] = true) ∧
    (listStage (JSVal.u8 ⟨[9, 8, 7]⟩) [JSVal.num 0, JSVal.num 1, JSVal.num 1234, JSVal.str "h"] =
      Except.ok [⟨[9]⟩]) :=
  ⟨rfl,
   (send_bad_buffer_rejected (Socket.new SocketType.udp4 false) (JSVal.num 5)
     [JSVal.num 0, JSVal.num 1, JSVal.num 1234, JSVal.str "h"]).1 rfl,
   rfl,
   (send_bad_buffer_rejected (Socket.new SocketType.udp4 false) (JSVal.num 5)
     [JSVal.num 0, JSVal.num 1, JSVal.num 1234, JSVal.str "h"]).2 ⟨[9, 8, 7]⟩ rfl⟩

/-- `>>> 0` is the identity on ports that fit 32 bits. -/
theorem toUint32_small (pn : Nat) (h : pn ≤ 65535) : toUint32 (JSVal.num (pn : Int)) = pn := by
  simp only [toUint32, toNumber, uint32OfNumber]
  omega

/-- One successful transmission prepends its record to the loop's
trace and continues with the rest. -/
theorem sendLoop_cons_ok (env : Env) (host : Option String) (port : Nat)
    (b : NBuffer) (rest : List NBuffer)
    (hok : env.sendDatagram host port b.buffer = Except.ok ()) :
    sendLoop env host port (b :: rest) =
      ((host, port, b.buffer) :: (sendLoop env host port rest).1,
        (sendLoop env host port rest).2) := by
  conv_lhs => unfold sendLoop
  rw [hok]

/-- The effect phase on a socket that is not `UNBOUND`: no internal
bind call, only the Send task appended. -/
theorem sendAssemble_bound (s : Socket) (p : ParsedSend)
    (hNU : ¬ s.bindState = BindState.UNBOUND) :
    sendAssemble s p =
      { socket :=
          { s with
            workQueue := s.workQueue ++
              [Task.sendT (if p.list.isEmpty then [NBuffer.mk []] else p.list) p.port
                (if p.address.truthy then p.address.strD "" else loopbackOf s.type) p.callback] },
        bindCalls := [] } := by
  unfold sendAssemble
  rw [if_neg hNU]

/-- The validation result of `send(["a","b"], port, address, callback)`
for an in-range port and a nonempty address string. -/
theorem parseSend_two_strings (pn : Nat) (addr : String) (cid : Nat)
    (hp1 : 0 < pn) (hp2 : pn ≤ 65535) :
    parseSend (JSVal.arr [JSVal.str "a", JSVal.str "b"])
        [JSVal.num (pn : Int), JSVal.str addr, JSVal.fn cid] =
      Except.ok ⟨[NBuffer.fromString "a", NBuffer.fromString "b"], pn,
        JSVal.str addr, some cid⟩ := by
  have hpa : toUint32 (JSVal.num (pn : Int)) = pn := toUint32_small pn hp2
  have hne : ¬(pn = 0 ∨ 65535 < pn) := by omega
  unfold parseSend
  have hl : listStage (JSVal.arr [JSVal.str "a", JSVal.str "b"])
      [JSVal.num (pn : Int), JSVal.str addr, JSVal.fn cid] =
      Except.ok [NBuffer.fromString "a", NBuffer.fromString "b"] := rfl
  rw [hl]
  simp only [parseCont, parsePort]
  rw [show effPortArg [JSVal.num (pn : Int), JSVal.str addr, JSVal.fn cid] =
    JSVal.num (pn : Int) from rfl]
  rw [hpa, if_neg hne]
  rw [show effAddrArg [JSVal.num (pn : Int), JSVal.str addr, JSVal.fn cid] =
    JSVal.str addr from rfl]
  rw [show effCbArg [JSVal.num (pn : Int), JSVal.str addr, JSVal.fn cid] =
    JSVal.fn cid from rfl]
  simp [JSVal.isFunction, JSVal.isString, JSVal.fnId]

/-- C8: `send(["a","b"], port, address, callback)` on a bound socket
(`BINDING`, live handle) enqueues exactly one Send task carrying the
two normalized buffers in list order, and performing that task while
the handle is live, with the address resolving to `host` and both
transmissions succeeding, hands exactly the two payloads to the
handle, in order and each awaited before the next (a failure of the
first would have stopped the loop), then invokes the callback once
with `null`. -/
theorem send_two_buffers (s : Socket) (env : Env) (pn : Nat) (addr : String) (cid : Nat)
    (host : String) (rest : List String) (hid : Nat)
    (hB : s.bindState = BindState.BINDING)
    (hH : s.handle = some hid)
    (hp1 : 0 < pn) (hp2 : pn ≤ 65535)
    (haddr : addr ≠ "")
    (hres : env.resolve (JSVal.str addr) = Except.ok ⟨host :: rest⟩)
    (hs1 : env.sendDatagram (some host) pn (NBuffer.fromString "a").buffer = Except.ok ())
    (hs2 : env.sendDatagram (some host) pn (NBuffer.fromString "b").buffer = Except.ok ()) :
    s.send (JSVal.arr [JSVal.str "a", JSVal.str "b"])
        [JSVal.num (pn : Int), JSVal.str addr, JSVal.fn cid] =
      Except.ok
        { socket :=
            { s with
              workQueue := s.workQueue ++
                [Task.sendT [NBuffer.fromString "a", NBuffer.fromString "b"] pn addr (some cid)] },
          bindCalls := [] } ∧
    performSend env s [NBuffer.fromString "a", NBuffer.fromString "b"] pn addr (some cid) =
      { socket := s, events := [],
        transmitted := [(some host, pn, (NBuffer.fromString "a").buffer),
                        (some host, pn, (NBuffer.fromString "b").buffer)],
        callbackCalls := [none], raised := none } := by
  have hNU : ¬ s.bindState = BindState.UNBOUND := by rw [hB]; simp
  have htr : (JSVal.str addr).truthy = true := by
    simp only [JSVal.truthy]
    exact bne_iff_ne.mpr haddr
  constructor
  · unfold Socket.send
    rw [parseSend_two_strings pn addr cid hp1 hp2]
    simp only [sendCont, Except.ok.injEq]
    rw [sendAssemble_bound s _ hNU]
    simp [htr, JSVal.strD]
  · have hloop : sendLoop env (some host) pn [NBuffer.fromString "a", NBuffer.fromString "b"] =
        ([(some host, pn, (NBuffer.fromString "a").buffer),
          (some host, pn, (NBuffer.fromString "b").buffer)], none) := by
      rw [sendLoop_cons_ok env (some host) pn _ _ hs1,
          sendLoop_cons_ok env (some host) pn _ _ hs2]
      rfl
    unfold performSend
    rw [hres]
    simp only [performSendCont, List.head?]
    rw [hH]
    simp only [performSendOnHandle]
    rw [hloop]
    rfl

theorem send_two_buffers_witness :
    (({ Socket.new SocketType.udp4 false with
        bindState := BindState.BINDING, handle := some 1 } : Socket).send
        (JSVal.arr [JSVal.str "a", JSVal.str "b"])
        [JSVal.num (53 : Int), JSVal.str "example.com", JSVal.fn 0] =
      Except.ok
        { socket :=
            { ({ Socket.new SocketType.udp4 false with
                 bindState := BindState.BINDING, handle := some 1 } : Socket) with
              workQueue := [Task.sendT [NBuffer.fromString "a", NBuffer.fromString "b"]
                53 "example.com" (some 0)] },
          bindCalls := [] }) ∧
    performSend envOk
        { Socket.new SocketType.udp4 false with
          bindState := BindState.BINDING, handle := some 1 }
        [NBuffer.fromString "a", NBuffer.fromString "b"] 53 "example.com" (some 0) =
      { socket := { Socket.new SocketType.udp4 false with
          bindState := BindState.BINDING, handle := some 1 },
        events := [],
        transmitted := [(some "93.184.216.34", 53, (NBuffer.fromString "a").buffer),
                        (some "93.184.216.34", 53, (NBuffer.fromString "b").buffer)],
        callbackCalls := [none], raised := none } :=
  send_two_buffers
    { Socket.new SocketType.udp4 false with
      bindState := BindState.BINDING, handle := some 1 }
    envOk 53 "example.com" 0 "93.184.216.34" [] 1
    rfl rfl (by decide) (by decide) (by decide) rfl rfl rfl

/-- Number of pending Spawn tasks in a queue. -/
def spawnCount (q : List Task) : Nat := (q.filter isSpawn).length

/-- The state invariant of a socket reachable from the constructor:
`BOUND` is never assigned; at most one Spawn is ever pending; an
`UNBOUND` socket has no pending Spawn (a Spawn is enqueued only by the
`UNBOUND` to `BINDING` transition); and a socket holding a live handle
is `BINDING` with no pending Spawn (the handle is set only by a Spawn
completing successfully). -/
def SockInv (s : Socket) : Prop :=
  s.bindState ≠ BindState.BOUND ∧
  spawnCount s.workQueue ≤ 1 ∧
  (s.bindState = BindState.UNBOUND → spawnCount s.workQueue = 0) ∧
  (s.handle.isSome = true → s.bindState = BindState.BINDING ∧ spawnCount s.workQueue = 0)

/-- The absorbing region after a successful bind: `BINDING` with no
pending Spawn.  From here `_bindState` can never change again (only a
Spawn's failure resets it, and no Spawn is or ever becomes pending). -/
def Settled (s : Socket) : Prop :=
  s.bindState = BindState.BINDING ∧ spawnCount s.workQueue = 0

theorem spawnCount_append (q1 q2 : List Task) :
    spawnCount (q1 ++ q2) = spawnCount q1 + spawnCount q2 := by
  simp [spawnCount, List.filter_append]

theorem spawnCount_sendT (l : List NBuffer) (p : Nat) (a : String) (c : Option Nat) :
    spawnCount [Task.sendT l p a c] = 0 := rfl

theorem spawnCount_closeT : spawnCount [Task.closeT] = 0 := rfl

theorem spawnCount_spawn (a p : JSVal) : spawnCount [Task.spawn a p] = 1 := rfl

theorem spawnCount_cons (t : Task) (rest : List Task) :
    spawnCount (t :: rest) = (if isSpawn t then 1 else 0) + spawnCount rest := by
  cases ht : isSpawn t <;> simp [spawnCount, List.filter_cons, ht, Nat.add_comm]

/-- A successful `send` returns the effect phase of some validation
result. -/
theorem send_ok_shape (s : Socket) (buffer : JSVal) (args : List JSVal) (out : SendOut)
    (h : s.send buffer args = Except.ok out) : ∃ p, out = sendAssemble s p := by
  unfold Socket.send at h
  cases hp : parseSend buffer args with
  | error e => rw [hp] at h; simp [sendCont] at h
  | ok p =>
      rw [hp] at h
      simp only [sendCont, Except.ok.injEq] at h
      exact ⟨p, h.symm⟩

/-- A `bind` on a socket that is not `UNBOUND` throws already-bound. -/
theorem bind_err_of_not_unbound (s : Socket) (args : List JSVal)
    (h : ¬ s.bindState = BindState.UNBOUND) :
    s.bind args = Except.error DgramError.alreadyBound := by
  simp [Socket.bind, h]

/-- The fields of the queue-popped socket a Spawn perform returns:
either a failure rollback (bindState `UNBOUND`, all else untouched) or
a success (handle set, all else untouched). -/
theorem performSpawn_socket (env : Env) (s : Socket) (a p : JSVal) :
    (performSpawn env s a p).socket = { s with bindState := BindState.UNBOUND } ∨
    (∃ h, (performSpawn env s a p).socket = { s with handle := some h }) := by
  unfold performSpawn
  cases hres : env.resolve a with
  | error e => left; rfl
  | ok record =>
      simp only [performSpawnCont]
      cases hc : env.create (spawnOptions s p record.addresses.head?) with
      | error e => left; rfl
      | ok h => right; exact ⟨h, rfl⟩

/-- A Send perform never changes the socket state. -/
theorem performSend_socket (env : Env) (s : Socket) (list : List NBuffer) (port : Nat)
    (address : String) (callback : Option Nat) :
    (performSend env s list port address callback).socket = s := by
  unfold performSend
  cases hres : env.resolve (JSVal.str address) with
  | error e => rfl
  | ok record =>
      simp only [performSendCont]
      cases hh : s.handle with
      | none => rfl
      | some h =>
          simp only [performSendOnHandle]
          rcases hsl : sendLoop env record.addresses.head? port list with ⟨ts, err⟩
          cases err <;> simp [sendDone]

/-- A Close perform clears the handle (or leaves it absent) and keeps
`_bindState` and the queue. -/
theorem performClose_socket (env : Env) (s : Socket) :
    (performClose env s).socket.handle = none ∧
    (performClose env s).socket.bindState = s.bindState ∧
    (performClose env s).socket.workQueue = s.workQueue := by
  unfold performClose
  cases hh : s.handle with
  | none =>
      simp [performCloseOnHandle, hh]
  | some h =>
      simp only [performCloseOnHandle]
      cases hc : env.closeHandle h with
      | error e => exact ⟨rfl, rfl, rfl⟩
      | ok u => exact ⟨rfl, rfl, rfl⟩

/-- Building `SockInv` for an explicit socket value. -/
theorem sockInv_mk (t : SocketType) (r : Bool) (bs : BindState) (hd : Option Nat)
    (q : List Task)
    (h1 : bs ≠ BindState.BOUND) (h2 : spawnCount q ≤ 1)
    (h3 : bs = BindState.UNBOUND → spawnCount q = 0)
    (h4 : hd.isSome = true → bs = BindState.BINDING ∧ spawnCount q = 0) :
    SockInv { type := t, reuseAddr := r, bindState := bs, handle := hd, workQueue := q } :=
  ⟨h1, h2, h3, h4⟩

/-- Building `Settled` for an explicit socket value. -/
theorem settled_mk (t : SocketType) (r : Bool) (bs : BindState) (hd : Option Nat)
    (q : List Task)
    (h1 : bs = BindState.BINDING) (h2 : spawnCount q = 0) :
    Settled { type := t, reuseAddr := r, bindState := bs, handle := hd, workQueue := q } :=
  ⟨h1, h2⟩

/-- `SockInv` is preserved by every action. -/
theorem sockInv_apply (s : Socket) (a : Action) (h : SockInv s) :
    SockInv (applyAction s a) := by
  obtain ⟨hNB, hle, hU0, hH⟩ := h
  cases a with
  | bindCall args =>
      simp only [applyAction]
      cases hb : s.bind args with
      | error e => simp only [applyBindResult]; exact ⟨hNB, hle, hU0, hH⟩
      | ok s1 =>
          simp only [applyBindResult]
          by_cases hu : s.bindState = BindState.UNBOUND
          · have hb2 : s.bind args = Except.ok (s.bindBody args) := by
              simp [Socket.bind, hu]
            rw [hb2] at hb
            injection hb with hb1
            rw [← hb1]
            have hc0 : spawnCount s.workQueue = 0 := hU0 hu
            have hhn : s.handle = none := by
              cases hhs : s.handle with
              | none => rfl
              | some x =>
                  have hbind := (hH (by rw [hhs]; rfl)).1
                  rw [hu] at hbind
                  exact absurd hbind (by simp)
            refine sockInv_mk _ _ _ _ _ (by simp) ?_ (fun hx => absurd hx (by simp)) ?_
            · show spawnCount (s.workQueue ++
                [Task.spawn (bindParsedPair s args).1 (bindParsedPair s args).2]) ≤ 1
              rw [spawnCount_append, hc0, spawnCount_spawn]
            · intro hx
              have hx2 : s.handle.isSome = true := hx
              rw [hhn] at hx2
              simp at hx2
          · rw [bind_err_of_not_unbound s args hu] at hb
            exact absurd hb (by simp)
  | sendCall buffer args =>
      simp only [applyAction]
      cases hsd : s.send buffer args with
      | error e => simp only [applySendResult]; exact ⟨hNB, hle, hU0, hH⟩
      | ok out =>
          simp only [applySendResult]
          obtain ⟨p, hout⟩ := send_ok_shape s buffer args out hsd
          by_cases hu : s.bindState = BindState.UNBOUND
          · have hc0 : spawnCount s.workQueue = 0 := hU0 hu
            have hhn : s.handle = none := by
              cases hhs : s.handle with
              | none => rfl
              | some x =>
                  have hbind := (hH (by rw [hhs]; rfl)).1
                  rw [hu] at hbind
                  exact absurd hbind (by simp)
            have hsock : out.socket =
                { s with
                  bindState := BindState.BINDING,
                  workQueue := (s.workQueue ++ [Task.spawn (wildcardJS s.type) (JSVal.num 0)]) ++
                    [Task.sendT (if p.list.isEmpty then [NBuffer.mk []] else p.list) p.port
                      (if p.address.truthy then p.address.strD "" else loopbackOf s.type)
                      p.callback] } := by
              rw [hout]
              exact (congrArg SendOut.socket (sendAssemble_unbound s p hu)).trans rfl
            rw [hsock]
            refine sockInv_mk _ _ _ _ _ (by simp) ?_ (fun hx => absurd hx (by simp)) ?_
            · rw [spawnCount_append, spawnCount_append, hc0, spawnCount_spawn, spawnCount_sendT]
            · intro hx
              have hx2 : s.handle.isSome = true := hx
              rw [hhn] at hx2
              simp at hx2
          · have hsock : out.socket =
                { s with
                  workQueue := s.workQueue ++
                    [Task.sendT (if p.list.isEmpty then [NBuffer.mk []] else p.list) p.port
                      (if p.address.truthy then p.address.strD "" else loopbackOf s.type)
                      p.callback] } := by
              rw [hout]
              exact (congrArg SendOut.socket (sendAssemble_bound s p hu)).trans rfl
            rw [hsock]
            refine sockInv_mk _ _ _ _ _ hNB ?_ ?_ ?_
            · rw [spawnCount_append, spawnCount_sendT]
              omega
            · intro hx
              rw [spawnCount_append, spawnCount_sendT, hU0 hx]
            · intro hx
              have h4 := hH hx
              exact ⟨h4.1, by rw [spawnCount_append, spawnCount_sendT, h4.2]⟩
  | closeCall =>
      simp only [applyAction, Socket.close]
      refine sockInv_mk _ _ _ _ _ hNB ?_ ?_ ?_
      · rw [spawnCount_append, spawnCount_closeT]
        omega
      · intro hx
        rw [spawnCount_append, spawnCount_closeT, hU0 hx]
      · intro hx
        have h4 := hH hx
        exact ⟨h4.1, by rw [spawnCount_append, spawnCount_closeT, h4.2]⟩
  | performNext env =>
      simp only [applyAction]
      cases hq : s.workQueue with
      | nil => simp only [applyPerformNext]; exact ⟨hNB, hle, hU0, hH⟩
      | cons t rest =>
          simp only [applyPerformNext]
          have hcons : spawnCount s.workQueue = (if isSpawn t then 1 else 0) + spawnCount rest := by
            rw [hq, spawnCount_cons]
          cases t with
          | spawn a p =>
              simp only [performTask]
              have h1 : spawnCount s.workQueue = 1 + spawnCount rest := by
                rw [hcons]; simp [isSpawn]
              have hrest0 : spawnCount rest = 0 := by omega
              have hNotU : ¬ s.bindState = BindState.UNBOUND := by
                intro hu
                have h2 := hU0 hu
                omega
              have hbind : s.bindState = BindState.BINDING := by
                cases hbs : s.bindState with
                | UNBOUND => exact absurd hbs hNotU
                | BINDING => rfl
                | BOUND => exact absurd hbs hNB
              have hhn : s.handle = none := by
                cases hhs : s.handle with
                | none => rfl
                | some x =>
                    have h2 := (hH (by rw [hhs]; rfl)).2
                    rw [h1] at h2
                    exact absurd h2 (by omega)
              rcases performSpawn_socket env { s with workQueue := rest } a p with hcase | ⟨hdl, hcase⟩
              · rw [hcase]
                refine sockInv_mk _ _ _ _ _ (by simp) (show spawnCount rest ≤ 1 by omega)
                  (fun _ => hrest0) ?_
                intro hx
                have hx2 : s.handle.isSome = true := hx
                rw [hhn] at hx2
                simp at hx2
              · rw [hcase]
                exact sockInv_mk _ _ _ _ _ hNB (show spawnCount rest ≤ 1 by omega)
                  (fun _ => hrest0) (fun _ => ⟨hbind, hrest0⟩)
          | sendT l p a c =>
              simp only [performTask]
              rw [performSend_socket]
              have h1 : spawnCount s.workQueue = spawnCount rest := by
                rw [hcons]; simp [isSpawn]
              refine sockInv_mk _ _ _ _ _ hNB (by omega) ?_ ?_
              · intro hx
                have h2 := hU0 hx
                omega
              · intro hx
                have h4 := hH hx
                exact ⟨h4.1, by omega⟩
          | closeT =>
              simp only [performTask]
              obtain ⟨hh1, hh2, hh3⟩ := performClose_socket env { s with workQueue := rest }
              have h1 : spawnCount s.workQueue = spawnCount rest := by
                rw [hcons]; simp [isSpawn]
              refine ⟨?_, ?_, ?_, ?_⟩
              · rw [hh2]
                exact hNB
              · rw [hh3]
                show spawnCount rest ≤ 1
                omega
              · intro hx
                rw [hh2] at hx
                have h2 := hU0 hx
                rw [hh3]
                show spawnCount rest = 0
                omega
              · intro hx
                rw [hh1] at hx
                simp at hx

/-- `SockInv` holds along every run from a fresh socket. -/
theorem sockInv_run (type : SocketType) (reuse : Bool) (acts : List Action) :
    SockInv (runActions (Socket.new type reuse) acts) := by
  have hbase : SockInv (Socket.new type reuse) := by
    refine ⟨by simp [Socket.new], by simp [Socket.new, spawnCount], fun _ => by simp [Socket.new, spawnCount], ?_⟩
    intro hx
    simp [Socket.new] at hx
  have : ∀ (l : List Action) (s : Socket), SockInv s → SockInv (runActions s l) := by
    intro l
    induction l with
    | nil => intro s h; exact h
    | cons a rest ih =>
        intro s h
        exact ih (applyAction s a) (sockInv_apply s a h)
  exact this acts (Socket.new type reuse) hbase

/-- `Settled` is absorbing: no action can leave it. -/
theorem settled_apply (s : Socket) (a : Action) (h : Settled s) :
    Settled (applyAction s a) := by
  obtain ⟨hB, hC⟩ := h
  have hNU : ¬ s.bindState = BindState.UNBOUND := by rw [hB]; simp
  cases a with
  | bindCall args =>
      simp only [applyAction]
      rw [bind_err_of_not_unbound s args hNU]
      simp only [applyBindResult]
      exact ⟨hB, hC⟩
  | sendCall buffer args =>
      simp only [applyAction]
      cases hsd : s.send buffer args with
      | error e => simp only [applySendResult]; exact ⟨hB, hC⟩
      | ok out =>
          simp only [applySendResult]
          obtain ⟨p, hout⟩ := send_ok_shape s buffer args out hsd
          have hsock : out.socket =
              { s with
                workQueue := s.workQueue ++
                  [Task.sendT (if p.list.isEmpty then [NBuffer.mk []] else p.list) p.port
                    (if p.address.truthy then p.address.strD "" else loopbackOf s.type)
                    p.callback] } := by
            rw [hout]
            exact (congrArg SendOut.socket (sendAssemble_bound s p hNU)).trans rfl
          rw [hsock]
          exact settled_mk _ _ _ _ _ hB (by rw [spawnCount_append, spawnCount_sendT, hC])
  | closeCall =>
      simp only [applyAction, Socket.close]
      exact settled_mk _ _ _ _ _ hB (by rw [spawnCount_append, spawnCount_closeT, hC])
  | performNext env =>
      simp only [applyAction]
      cases hq : s.workQueue with
      | nil => simp only [applyPerformNext]; exact ⟨hB, hC⟩
      | cons t rest =>
          simp only [applyPerformNext]
          have hc2 : (if isSpawn t then 1 else 0) + spawnCount rest = 0 := by
            rw [← spawnCount_cons, ← hq]
            exact hC
          cases t with
          | spawn a p =>
              rw [show isSpawn (Task.spawn a p) = true from rfl] at hc2
              simp at hc2
          | sendT l p a c =>
              have hrest : spawnCount rest = 0 := by
                rw [show isSpawn (Task.sendT l p a c) = false from rfl] at hc2
                simpa using hc2
              simp only [performTask]
              rw [performSend_socket]
              exact settled_mk _ _ _ _ _ hB hrest
          | closeT =>
              have hrest : spawnCount rest = 0 := by
                rw [show isSpawn Task.closeT = false from rfl] at hc2
                simpa using hc2
              simp only [performTask]
              obtain ⟨hh1, hh2, hh3⟩ := performClose_socket env { s with workQueue := rest }
              refine ⟨?_, ?_⟩
              · rw [hh2]
                exact hB
              · rw [hh3]
                show spawnCount rest = 0
                exact hrest

/-- `Settled` persists along any further run. -/
theorem settled_run (s : Socket) (acts : List Action) (h : Settled s) :
    Settled (runActions s acts) := by
  induction acts generalizing s with
  | nil => exact h
  | cons a rest ih => exact ih (applyAction s a) (settled_apply s a h)

/-- The internal bind-call trace of a successful `send` on a socket
that is not `UNBOUND` is empty: no auto-bind is even attempted. -/
theorem send_no_autobind (s : Socket) (buffer : JSVal) (args : List JSVal) (out : SendOut)
    (hNU : ¬ s.bindState = BindState.UNBOUND)
    (h : s.send buffer args = Except.ok out) : out.bindCalls = [] := by
  obtain ⟨p, hout⟩ := send_ok_shape s buffer args out h
  rw [hout, sendAssemble_bound s p hNU]

/-- C10: along every run from a fresh socket, `_bindState` is never
`BOUND` (the enum value is never assigned).  Moreover once a run has
produced a live handle - which only a successful Spawn can do - the
socket is `BINDING` with no pending Spawn, and that region is
absorbing: after any further actions (closing included) every direct
`bind` call throws already-bound, a successful `send` performs no
auto-bind attempt at all (its internal bind-call trace is empty), and
no Spawn task is ever pending again - the socket can never be
re-bound. -/
theorem never_rebound (type : SocketType) (reuse : Bool) (acts acts2 : List Action)
    (args : List JSVal) (buffer : JSVal) (sargs : List JSVal)
    (hs : (runActions (Socket.new type reuse) acts).handle.isSome = true) :
    (∀ acts3 : List Action,
      (runActions (Socket.new type reuse) acts3).bindState ≠ BindState.BOUND) ∧
    (runActions (runActions (Socket.new type reuse) acts) acts2).bind args =
      Except.error DgramError.alreadyBound ∧
    (∀ out, (runActions (runActions (Socket.new type reuse) acts) acts2).send buffer sargs =
      Except.ok out → out.bindCalls = []) ∧
    spawnCount (runActions (runActions (Socket.new type reuse) acts) acts2).workQueue = 0 := by
  have hinv := sockInv_run type reuse acts
  have hsettled : Settled (runActions (Socket.new type reuse) acts) := hinv.2.2.2 hs
  have hs2 : Settled (runActions (runActions (Socket.new type reuse) acts) acts2) :=
    settled_run _ acts2 hsettled
  have hNU2 : ¬ (runActions (runActions (Socket.new type reuse) acts) acts2).bindState =
      BindState.UNBOUND := by rw [hs2.1]; simp
  refine ⟨fun acts3 => (sockInv_run type reuse acts3).1, ?_, ?_, hs2.2⟩
  · exact bind_err_of_not_unbound _ args hNU2
  · intro out hout
    exact send_no_autobind _ buffer sargs out hNU2 hout

theorem never_rebound_witness :
    ((runActions (Socket.new SocketType.udp4 false)
      [Action.bindCall [JSVal.num 8080], Action.performNext envOk]).handle.isSome = true) ∧
    ((runActions (runActions (Socket.new SocketType.udp4 false)
        [Action.bindCall [JSVal.num 8080], Action.performNext envOk])
        [Action.closeCall, Action.performNext envOk]).bind [JSVal.num 1] =
      Except.error DgramError.alreadyBound) ∧
    (spawnCount (runActions (runActions (Socket.new SocketType.udp4 false)
        [Action.bindCall [JSVal.num 8080], Action.performNext envOk])
        [Action.closeCall, Action.performNext envOk]).workQueue = 0) :=
  ⟨rfl,
   (never_rebound SocketType.udp4 false
     [Action.bindCall [JSVal.num 8080], Action.performNext envOk]
     [Action.closeCall, Action.performNext envOk]
     [JSVal.num 1] (JSVal.str "x") [JSVal.num 9] rfl).2.1,
   (never_rebound SocketType.udp4 false
     [Action.bindCall [JSVal.num 8080], Action.performNext envOk]
     [Action.closeCall, Action.performNext envOk]
     [JSVal.num 1] (JSVal.str "x") [JSVal.num 9] rfl).2.2.2⟩

end Dgram
